import Mathlib

/-!
# Verification of the `with_refresh_token` example (rspotify)

Shallow embedding of `src/examples/with_refresh_token.rs`.  The example is
glue code over the rspotify library, whose source is not part of this
repository snapshot; the library operations it calls
(`get_token_without_cache`, `SpotifyOAuth::refresh_access_token_without_cache`,
`Spotify::user_follow_artists`, `Spotify::current_user_followed_artists`,
`Spotify::user_unfollow_artists`) are therefore modelled from the
specification (spec.md §3, §4, §6, §7), while the example's own functions
(`get_refresh_token`, `client_from_refresh_token`, `do_things`, `main`)
are translated directly from the source.

The external world (token endpoint, REST service, transport) is an explicit
`Provider` value; the user's followed-artists set is an explicit
`ServiceState`; each operation additionally emits a list of `Event`s so that
temporal claims about the control flow can be stated on traces.
-/

namespace RSpotify

/-- Modelled from the spec (§3 TokenPair, and rspotify's `TokenInfo`):
the token pair returned by a successful exchange.  `access_token` is the
short-lived credential, `refresh_token` is optional, `expires_at` a
timestamp, `scope` the granted scope string. -/
structure TokenPair where
  access_token : String
  refresh_token : Option String
  expires_at : Nat
  scope : String
deriving Repr, DecidableEq

/-- Modelled from the spec (§7): error taxonomy of the Authenticator. -/
inductive AuthError where
  | UserDenied
  | InvalidGrant
  | NetworkError
deriving Repr, DecidableEq

/-- Modelled from the spec (§7): error taxonomy of the API session.
The environment model below only exercises `Unauthorized` (invalid or
missing access token); the other kinds exist in the taxonomy. -/
inductive ApiError where
  | Unauthorized
  | RateLimited
  | NotFound
  | BadRequest
  | NetworkError
deriving Repr, DecidableEq

/-- Errors of the example program as a whole: either a library error
(the Rust example panics via `.expect`; the embedding returns them as
typed results), or the absence of a refresh token after the interactive
exchange (`token.refresh_token.expect(...)` at line 29-30). -/
inductive ExampleError where
  | auth (e : AuthError)
  | api (e : ApiError)
  | missingRefreshToken
deriving Repr, DecidableEq

/-- Modelled from rspotify's `SpotifyOAuth` as described by the spec
(§2, §6): the Authenticator configuration — client credentials, redirect
URI and requested scope. -/
structure SpotifyOAuth where
  client_id : String
  client_secret : String
  redirect_uri : String
  scope : String
deriving Repr, DecidableEq

/-- Modelled from rspotify's `SpotifyClientCredentials`: client credentials
optionally carrying a token pair (`.token_info(...)` setter in the source). -/
structure SpotifyClientCredentials where
  client_id : String
  client_secret : String
  token_info : Option TokenPair
deriving Repr, DecidableEq

/-- Modelled from rspotify's `Spotify` client: a handle holding an optional
credentials manager (`.client_credentials_manager(...)` in the source). -/
structure Spotify where
  client_credentials_manager : Option SpotifyClientCredentials
deriving Repr, DecidableEq

/-- The access token a `Spotify` client presents on REST calls, if any. -/
def Spotify.access_token (s : Spotify) : Option String :=
  match s.client_credentials_manager with
  | none => none
  | some c =>
    match c.token_info with
    | none => none
    | some t => some t.access_token

/-- Events emitted by the embedded program, used to state temporal claims:
the one-time interactive authorization, a refresh-token exchange (recording
the refresh token sent), the construction of an API session (recording the
access token it holds), and an attempted REST call (recording the
operation's name). -/
inductive Event where
  | interactiveAuth
  | refreshCall (refresh_token : String)
  | sessionBuilt (access_token : String)
  | restCall (op : String)
deriving Repr, DecidableEq

/-- Modelled from the spec (§5, §6): the external world as seen by the
program — the provider's token endpoint, the REST service, and the
transport.  `validRefreshTokens` are the refresh tokens the provider
honours; `mintAccess` is the access token it mints for a refresh token;
`rotatedRefresh` is the optional rotated refresh token returned by a
refresh exchange; `interactiveOutcome` is the result of the one-time
browser-mediated authorization-code flow; `validAccessTokens` are the
access tokens the REST service accepts; `transportOk` tells whether the
transport to the token endpoint succeeds. -/
structure Provider where
  validRefreshTokens : List String
  mintAccess : String → String
  rotatedRefresh : String → Option String
  tokenExpiry : Nat
  interactiveOutcome : Except AuthError TokenPair
  validAccessTokens : List String
  transportOk : Bool

/-- The access token carried by a successful exchange result, if any. -/
def accessOf : Except AuthError TokenPair → Option String
  | .ok tp => some tp.access_token
  | .error _ => none

/-- Well-formedness of a provider, from the spec's invariants (§3, §8):
every minted access token is non-empty, and a successful interactive
exchange returns a non-empty access token. -/
def Provider.WF (p : Provider) : Prop :=
  (∀ rt ∈ p.validRefreshTokens, p.mintAccess rt ≠ "") ∧
  accessOf p.interactiveOutcome ≠ some ""

instance (p : Provider) : Decidable p.WF := by
  unfold Provider.WF
  exact instDecidableAnd

/-- The current mutable state of the external service: the set (as a list)
of artist ids the user currently follows. -/
structure ServiceState where
  followed : List String
deriving Repr, DecidableEq

/-- Modelled from the spec: rspotify's `get_token_without_cache`
(`authorize_interactive` in §4.1) — the one-time, user-present OAuth2
authorization-code flow.  Its outcome is the provider's
`interactiveOutcome`; it emits an `interactiveAuth` event. -/
def get_token_without_cache (p : Provider) (_oauth : SpotifyOAuth) :
    Except AuthError TokenPair × List Event :=
  (p.interactiveOutcome, [Event.interactiveAuth])

/-- Modelled from the spec: rspotify's
`SpotifyOAuth::refresh_access_token_without_cache` (`refresh` in §4.1) —
exchanges a refresh token for a new token pair without user interaction
and without reading any cached access token (the function takes no cache
input at all).  Fails with `NetworkError` on transport failure, with
`InvalidGrant` when the transport succeeds but the provider rejects the
token; on success the pair carries the minted access token, the provider's
optional rotated refresh token, and the requested scope.  Takes `oauth` by
shared reference in the source (`&self`), so it is a pure reader of the
configuration.  Emits a `refreshCall` event recording the token sent. -/
def refresh_access_token_without_cache (p : Provider) (oauth : SpotifyOAuth)
    (refresh_token : String) :
    Except AuthError TokenPair × List Event :=
  (if p.transportOk = false then Except.error AuthError.NetworkError
   else if refresh_token ∈ p.validRefreshTokens then
     Except.ok
       { access_token := p.mintAccess refresh_token
         refresh_token := p.rotatedRefresh refresh_token
         expires_at := p.tokenExpiry
         scope := oauth.scope }
   else Except.error AuthError.InvalidGrant,
   [Event.refreshCall refresh_token])

/-- Embedded from the source (lines 24-31): `get_refresh_token` runs the
interactive flow once and extracts the refresh token; both `.expect`
panics become typed errors. -/
def get_refresh_token (p : Provider) (oauth : SpotifyOAuth) :
    Except ExampleError String × List Event :=
  match get_token_without_cache p oauth with
  | (.error e, tr) => (.error (.auth e), tr)
  | (.ok token, tr) =>
    match token.refresh_token with
    | none => (.error .missingRefreshToken, tr)
    | some rt => (.ok rt, tr)

/-- Embedded from the source (lines 33-48): exchange the refresh token for
a fresh access token, then build client credentials carrying the new token
pair and a client around them.  The extra `cachedToken` argument models
whatever access token the environment may have cached from an earlier
session; the source function never reads a cache (it calls the
`_without_cache` exchange), so the argument is unused — which is exactly
the claim its name makes.  Emits a `sessionBuilt` event recording the
access token the client holds. -/
def client_from_refresh_token (p : Provider) (cachedToken : Option TokenPair)
    (oauth : SpotifyOAuth) (refresh_token : String) :
    Except AuthError Spotify × List Event :=
  match refresh_access_token_without_cache p oauth refresh_token with
  | (.error e, tr) => (.error e, tr)
  | (.ok token_info, tr) =>
    let client_credential : SpotifyClientCredentials :=
      { client_id := oauth.client_id
        client_secret := oauth.client_secret
        token_info := some token_info }
    (.ok { client_credentials_manager := some client_credential },
     tr ++ [Event.sessionBuilt token_info.access_token])

/-- Modelled from the spec: rspotify's `Spotify::user_follow_artists`
(`follow_artists` in §4.2) — `PUT /me/following`.  Fails with
`Unauthorized` when the client presents no access token or one the service
does not accept; otherwise adds the ids to the followed set.  Idempotent:
already-followed ids are not duplicated and not an error. -/
def user_follow_artists (p : Provider) (st : ServiceState) (s : Spotify)
    (ids : List String) : Except ApiError ServiceState :=
  match s.access_token with
  | none => .error .Unauthorized
  | some tok =>
    if tok ∈ p.validAccessTokens then
      .ok { followed := st.followed ++ ids.filter (fun i => !st.followed.contains i) }
    else .error .Unauthorized

/-- Modelled from the spec: rspotify's `Spotify::current_user_followed_artists`
(`list_followed_artists` in §4.2) — `GET /me/following?type=artist`.
Returns one page whose items are the currently followed artist ids;
cursor and limit semantics belong to the external service and are not
modelled beyond being accepted.  Fails with `Unauthorized` exactly as
`user_follow_artists` does. -/
structure CursorBasedPage where
  items : List String
deriving Repr, DecidableEq

/-- The `{ artists: page }` wrapper the endpoint returns
(`followed.artists.items` in the source). -/
structure FollowedArtists where
  artists : CursorBasedPage
deriving Repr, DecidableEq

def current_user_followed_artists (p : Provider) (st : ServiceState)
    (s : Spotify) (_limit : Option Nat) (_after : Option String) :
    Except ApiError FollowedArtists :=
  match s.access_token with
  | none => .error .Unauthorized
  | some tok =>
    if tok ∈ p.validAccessTokens then
      .ok { artists := { items := st.followed } }
    else .error .Unauthorized

/-- Modelled from the spec: rspotify's `Spotify::user_unfollow_artists`
(`unfollow_artists` in §4.2) — `DELETE /me/following`.  Removes the ids
from the followed set; idempotent; fails with `Unauthorized` exactly as
`user_follow_artists` does. -/
def user_unfollow_artists (p : Provider) (st : ServiceState) (s : Spotify)
    (ids : List String) : Except ApiError ServiceState :=
  match s.access_token with
  | none => .error .Unauthorized
  | some tok =>
    if tok ∈ p.validAccessTokens then
      .ok { followed := st.followed.filter (fun i => !ids.contains i) }
    else .error .Unauthorized

/-- Embedded from the source (lines 53-57): the three artist ids the
example follows and unfollows. -/
def artists : List String :=
  ["3RGLhK1IP9jnYFH4BRFJBS", "0yNLKJebCb8Aueb54LYya3", "2jzc5TC5TVFLXQlBNiIUzE"]

/-- Embedded from the source (lines 52-79): follow the three artists, list
the followed artists, unfollow them; each `.expect` panic becomes a typed
error that stops the flow.  Returns the final service state together with
the listed page, and the trace of attempted REST calls. -/
def do_things (p : Provider) (st : ServiceState) (spotify : Spotify) :
    Except ApiError (ServiceState × FollowedArtists) × List Event :=
  match user_follow_artists p st spotify artists with
  | .error e => (.error e, [Event.restCall "user_follow_artists"])
  | .ok st1 =>
    match current_user_followed_artists p st1 spotify none none with
    | .error e =>
      (.error e,
       [Event.restCall "user_follow_artists",
        Event.restCall "current_user_followed_artists"])
    | .ok followed =>
      match user_unfollow_artists p st1 spotify artists with
      | .error e =>
        (.error e,
         [Event.restCall "user_follow_artists",
          Event.restCall "current_user_followed_artists",
          Event.restCall "user_unfollow_artists"])
      | .ok st2 =>
        (.ok (st2, followed),
         [Event.restCall "user_follow_artists",
          Event.restCall "current_user_followed_artists",
          Event.restCall "user_unfollow_artists"])

/-- Embedded from the source (lines 85-87): the oauth configuration the
example builds (`SpotifyOAuth::default().scope(...).build()`); the default
client credentials come from the environment and are opaque here. -/
def exampleOAuth (client_id client_secret redirect_uri : String) : SpotifyOAuth :=
  { client_id := client_id
    client_secret := client_secret
    redirect_uri := redirect_uri
    scope := "user-follow-read user-follow-modify" }

/-- Embedded from the source (lines 81-105): session one obtains the
refresh token interactively; sessions two and three each mint a fresh
access token from that same stored refresh token, build a client and run
`do_things`.  Returns the final service state and the two listed pages,
plus the full event trace. -/
def main (p : Provider) (st : ServiceState) (cachedToken : Option TokenPair)
    (oauth : SpotifyOAuth) :
    Except ExampleError (ServiceState × FollowedArtists × FollowedArtists) × List Event :=
  match get_refresh_token p oauth with
  | (.error e, tr1) => (.error e, tr1)
  | (.ok refresh_token, tr1) =>
    match client_from_refresh_token p cachedToken oauth refresh_token with
    | (.error e, tr2) => (.error (.auth e), tr1 ++ tr2)
    | (.ok spotify, tr2) =>
      match do_things p st spotify with
      | (.error e, tr3) => (.error (.api e), tr1 ++ tr2 ++ tr3)
      | (.ok (st2, followed2), tr3) =>
        match client_from_refresh_token p cachedToken oauth refresh_token with
        | (.error e, tr4) => (.error (.auth e), tr1 ++ tr2 ++ tr3 ++ tr4)
        | (.ok spotify3, tr4) =>
          match do_things p st2 spotify3 with
          | (.error e, tr5) => (.error (.api e), tr1 ++ tr2 ++ tr3 ++ tr4 ++ tr5)
          | (.ok (st3, followed3), tr5) =>
            (.ok (st3, followed2, followed3), tr1 ++ tr2 ++ tr3 ++ tr4 ++ tr5)

/-- The token pair a successful refresh exchange returns, as an
abbreviation for stating results (its fields read off
`refresh_access_token_without_cache`). -/
def mintedToken (p : Provider) (oauth : SpotifyOAuth) (rt : String) : TokenPair :=
  { access_token := p.mintAccess rt
    refresh_token := p.rotatedRefresh rt
    expires_at := p.tokenExpiry
    scope := oauth.scope }

/-- The client a successful `client_from_refresh_token` builds. -/
def clientOf (p : Provider) (oauth : SpotifyOAuth) (rt : String) : Spotify :=
  { client_credentials_manager := some
      { client_id := oauth.client_id
        client_secret := oauth.client_secret
        token_info := some (mintedToken p oauth rt) } }

/-- State-passing view of the refresh exchange: the rspotify method takes
`&self` — a shared reference to the `SpotifyOAuth` configuration — so the
configuration available after the call is the value passed in; only a
`&mut self` callee could hand back an updated one. -/
def refresh_access_token_without_cache_st (p : Provider) (oauth : SpotifyOAuth)
    (refresh_token : String) :
    (Except AuthError TokenPair × List Event) × SpotifyOAuth :=
  (refresh_access_token_without_cache p oauth refresh_token, oauth)

/-- State-passing view of `client_from_refresh_token` (source lines 33-48):
threads the oauth configuration through its only library call, so the
configuration it ends with is whatever `refresh_access_token_without_cache`
hands back. -/
def client_from_refresh_token_st (p : Provider) (cachedToken : Option TokenPair)
    (oauth : SpotifyOAuth) (refresh_token : String) :
    (Except AuthError Spotify × List Event) × SpotifyOAuth :=
  let r := refresh_access_token_without_cache_st p oauth refresh_token
  (client_from_refresh_token p cachedToken r.2 refresh_token, r.2)

/-- Trace automaton for the session lifecycle.  Phase 0: no freshly minted
access token in hand; phase 1: an access token has just been minted by a
refresh exchange but no session is built from it yet; phase 2: a session
built from the freshly minted token exists.  A `sessionBuilt` event is
only legal in phase 1 and a `restCall` only in phase 2. -/
def sessionPhase : List Event → Nat → Bool
  | [], _ => true
  | Event.interactiveAuth :: es, _ => sessionPhase es 0
  | Event.refreshCall _ :: es, _ => sessionPhase es 1
  | Event.sessionBuilt _ :: es, ph => ph == 1 && sessionPhase es 2
  | Event.restCall _ :: es, ph => ph == 2 && sessionPhase es ph

/-- General characterization: a successful refresh exchange is exactly
transport success plus a provider-accepted token. -/
theorem refresh_ok_iff (p : Provider) (oauth : SpotifyOAuth) (rt : String) :
    (refresh_access_token_without_cache p oauth rt).1 = .ok (mintedToken p oauth rt) ↔
      (p.transportOk = true ∧ rt ∈ p.validRefreshTokens) := by
  constructor
  · intro h
    unfold refresh_access_token_without_cache at h
    by_cases h1 : p.transportOk = false
    · simp [h1] at h
    · by_cases h2 : rt ∈ p.validRefreshTokens
      · exact ⟨by simpa using h1, h2⟩
      · simp [h1, h2] at h
  · intro ⟨h1, h2⟩
    simp [refresh_access_token_without_cache, mintedToken, h1, h2]

/-- C8: with the transport up and a refresh token the provider rejects,
the refresh exchange fails with `InvalidGrant` and in particular not with
`NetworkError`. -/
theorem refresh_invalid_token_invalid_grant (p : Provider) (oauth : SpotifyOAuth)
    (rt : String) (ht : p.transportOk = true) (hv : rt ∉ p.validRefreshTokens) :
    (refresh_access_token_without_cache p oauth rt).1 = .error AuthError.InvalidGrant ∧
    (refresh_access_token_without_cache p oauth rt).1 ≠ .error AuthError.NetworkError := by
  constructor
  · simp [refresh_access_token_without_cache, ht, hv]
  · simp [refresh_access_token_without_cache, ht, hv]

/-- C2: `client_from_refresh_token` depends only on the provider, the
oauth configuration and the refresh token: any two cached tokens from
earlier sessions yield the same result and trace, and the call performs no
user interaction (no `interactiveAuth` event is emitted). -/
theorem client_from_refresh_token_cache_independent (p : Provider)
    (c1 c2 : Option TokenPair) (oauth : SpotifyOAuth) (rt : String) :
    client_from_refresh_token p c1 oauth rt = client_from_refresh_token p c2 oauth rt ∧
    Event.interactiveAuth ∉ (client_from_refresh_token p c1 oauth rt).2 := by
  constructor
  · rfl
  · unfold client_from_refresh_token refresh_access_token_without_cache
    by_cases h1 : p.transportOk = false <;> by_cases h2 : rt ∈ p.validRefreshTokens <;>
      simp [h1, h2]

/-- C10: the oauth configuration is only read by the refresh-based client
construction — every field of the configuration after the call is the one
passed in. -/
theorem client_from_refresh_token_oauth_frame (p : Provider)
    (cached : Option TokenPair) (oauth : SpotifyOAuth) (rt : String) :
    (client_from_refresh_token_st p cached oauth rt).2 = oauth ∧
    (client_from_refresh_token_st p cached oauth rt).2.scope = oauth.scope ∧
    (client_from_refresh_token_st p cached oauth rt).2.client_id = oauth.client_id ∧
    (client_from_refresh_token_st p cached oauth rt).2.client_secret = oauth.client_secret ∧
    (client_from_refresh_token_st p cached oauth rt).2.redirect_uri = oauth.redirect_uri ∧
    (client_from_refresh_token_st p cached oauth rt).1 =
      client_from_refresh_token p cached oauth rt := by
  exact ⟨rfl, rfl, rfl, rfl, rfl, rfl⟩

/-- Inversion for a successful follow call: the client presented an access
token the service accepts, and the new state appends exactly the
not-yet-followed ids. -/
theorem user_follow_artists_ok (p : Provider) (st : ServiceState) (s : Spotify)
    (ids : List String) (st1 : ServiceState)
    (h : user_follow_artists p st s ids = .ok st1) :
    ∃ tok, s.access_token = some tok ∧ tok ∈ p.validAccessTokens ∧
      st1 = { followed := st.followed ++ ids.filter (fun i => !st.followed.contains i) } := by
  unfold user_follow_artists at h
  split at h
  · cases h
  · rename_i tok htok
    split at h
    · rename_i hacc
      exact ⟨tok, htok, hacc, (Except.ok.inj h).symm⟩
    · cases h

/-- C4: starting from a state in which none of the ids are followed, a
successful `user_follow_artists` on an id set followed by
`user_unfollow_artists` on the same set restores the original state. -/
theorem follow_unfollow_roundtrip (p : Provider) (st : ServiceState) (s : Spotify)
    (ids : List String) (st1 : ServiceState)
    (hnone : ∀ i ∈ ids, i ∉ st.followed)
    (hf : user_follow_artists p st s ids = .ok st1) :
    user_unfollow_artists p st1 s ids = .ok st := by
  obtain ⟨tok, htok, hacc, hst1⟩ := user_follow_artists_ok p st s ids st1 hf
  subst hst1
  have hlist : (st.followed ++ ids.filter (fun i => !st.followed.contains i)).filter
      (fun i => !ids.contains i) = st.followed := by
    rw [List.filter_append]
    have h1 : st.followed.filter (fun i => !ids.contains i) = st.followed := by
      apply List.filter_eq_self.mpr
      intro a ha
      simp only [Bool.not_eq_true', ← Bool.not_eq_true, List.elem_iff]
      exact fun hin => hnone a hin ha
    have h2 : (ids.filter (fun i => !st.followed.contains i)).filter
        (fun i => !ids.contains i) = [] := by
      apply List.filter_eq_nil_iff.mpr
      intro a ha
      have hmem : a ∈ ids := List.mem_of_mem_filter ha
      simp [List.elem_iff, hmem]
    rw [h1, h2, List.append_nil]
  simp only [user_unfollow_artists, htok]
  rw [if_pos hacc, hlist]

/-- C5: after a successful `user_follow_artists` on an id set, listing the
followed artists succeeds and returns a page whose items include every id
of the set (a membership property, regardless of ordering). -/
theorem list_after_follow_includes (p : Provider) (st : ServiceState) (s : Spotify)
    (ids : List String) (st1 : ServiceState)
    (hf : user_follow_artists p st s ids = .ok st1) :
    ∃ page, current_user_followed_artists p st1 s none none = .ok page ∧
      ∀ i ∈ ids, i ∈ page.artists.items := by
  obtain ⟨tok, htok, hacc, hst1⟩ := user_follow_artists_ok p st s ids st1 hf
  subst hst1
  refine ⟨⟨⟨st.followed ++ ids.filter (fun i => !st.followed.contains i)⟩⟩, ?_, ?_⟩
  · simp [current_user_followed_artists, htok, hacc]
  · intro i hi
    by_cases hl : i ∈ st.followed
    · exact List.mem_append_left _ hl
    · refine List.mem_append_right _ (List.mem_filter.mpr ⟨hi, ?_⟩)
      simp [List.elem_iff, hl]

/-- Inversion for a successful refresh exchange: the transport was up, the
provider accepted the token, and the result is the minted token pair. -/
theorem refresh_ok_inv (p : Provider) (oauth : SpotifyOAuth) (rt : String)
    (tp : TokenPair)
    (h : (refresh_access_token_without_cache p oauth rt).1 = .ok tp) :
    p.transportOk = true ∧ rt ∈ p.validRefreshTokens ∧ tp = mintedToken p oauth rt := by
  unfold refresh_access_token_without_cache at h
  by_cases h1 : p.transportOk = false
  · simp [h1] at h
  · by_cases h2 : rt ∈ p.validRefreshTokens
    · simp [h1, h2, mintedToken] at h
      exact ⟨by simpa using h1, h2, h.symm⟩
    · simp [h1, h2] at h

/-- A provider witnessing that a successful refresh may return no refresh
token: it honours the token `"r"` but rotates nothing. -/
def noRotationProvider : Provider :=
  { validRefreshTokens := ["r"]
    mintAccess := fun _ => "a"
    rotatedRefresh := fun _ => none
    tokenExpiry := 0
    interactiveOutcome := .error AuthError.UserDenied
    validAccessTokens := []
    transportOk := true }

/-- A blank oauth configuration, for concrete instantiations. -/
def blankOAuth : SpotifyOAuth :=
  { client_id := ""
    client_secret := ""
    redirect_uri := ""
    scope := "" }

/-- C6: for a well-formed provider, every successful exchange — interactive
or refresh — returns a token pair with a non-empty access token, while a
successful refresh may come back with no refresh token at all (so callers
must handle its absence). -/
theorem token_pair_invariant (p : Provider) (oauth : SpotifyOAuth) (rt : String)
    (hWF : p.WF) :
    (∀ tp, (get_token_without_cache p oauth).1 = .ok tp → tp.access_token ≠ "") ∧
    (∀ tp, (refresh_access_token_without_cache p oauth rt).1 = .ok tp →
      tp.access_token ≠ "") ∧
    (∃ tq, Provider.WF noRotationProvider ∧
      (refresh_access_token_without_cache noRotationProvider blankOAuth "r").1 =
        .ok tq ∧
      tq.refresh_token = none) := by
  obtain ⟨hmint, hinter⟩ := hWF
  refine ⟨?_, ?_, ?_⟩
  · intro tp htp
    have hio : p.interactiveOutcome = Except.ok tp := htp
    intro hempty
    apply hinter
    rw [hio]
    simp [accessOf, hempty]
  · intro tp htp
    obtain ⟨-, h2, h3⟩ := refresh_ok_inv p oauth rt tp htp
    rw [h3]
    exact hmint rt h2
  · exact ⟨mintedToken noRotationProvider blankOAuth "r",
      ⟨by decide, by simp [noRotationProvider, accessOf]⟩,
      (refresh_ok_iff noRotationProvider blankOAuth "r").mpr ⟨rfl, by simp [noRotationProvider]⟩,
      rfl⟩

/-- The followed-set after `do_things` follows the example's three
artists: the not-yet-followed ones are appended. -/
def followAll (st : ServiceState) : ServiceState :=
  { followed := st.followed ++ artists.filter (fun i => !st.followed.contains i) }

/-- The followed-set after `do_things` finishes: the three artists are
removed again. -/
def afterThings (st : ServiceState) : ServiceState :=
  { followed := (followAll st).followed.filter (fun i => !artists.contains i) }

/-- With an access token the service accepts, `do_things` runs all three
REST calls and succeeds; the page it lists is the followed set right after
the follow call. -/
theorem do_things_ok (p : Provider) (st : ServiceState) (s : Spotify) (tok : String)
    (htok : s.access_token = some tok) (hacc : tok ∈ p.validAccessTokens) :
    do_things p st s =
      (Except.ok (afterThings st, { artists := { items := (followAll st).followed } }),
       [Event.restCall "user_follow_artists",
        Event.restCall "current_user_followed_artists",
        Event.restCall "user_unfollow_artists"]) := by
  simp [do_things, user_follow_artists, current_user_followed_artists,
    user_unfollow_artists, htok, hacc, followAll, afterThings]

/-- Without an acceptable access token, `do_things` fails `Unauthorized`
at its very first REST call and attempts nothing further. -/
theorem do_things_err (p : Provider) (st : ServiceState) (s : Spotify)
    (h : ∀ tok, s.access_token = some tok → tok ∉ p.validAccessTokens) :
    do_things p st s =
      (Except.error ApiError.Unauthorized, [Event.restCall "user_follow_artists"]) := by
  rcases htok : s.access_token with _ | tok
  · simp only [do_things, user_follow_artists, htok]
  · have hacc := h tok htok
    simp only [do_things, user_follow_artists, htok]
    rw [if_neg hacc]

/-- The client built from a refresh token presents the minted access
token. -/
theorem clientOf_access_token (p : Provider) (oauth : SpotifyOAuth) (rt : String) :
    (clientOf p oauth rt).access_token = some (p.mintAccess rt) := rfl

/-- Characterization of `client_from_refresh_token`: it either fails with
an authentication error having sent one refresh request, or returns the
client holding the minted token having additionally built the session. -/
theorem client_cases (p : Provider) (cached : Option TokenPair)
    (oauth : SpotifyOAuth) (rt : String) :
    (∃ e, client_from_refresh_token p cached oauth rt =
        (Except.error e, [Event.refreshCall rt])) ∨
    (client_from_refresh_token p cached oauth rt =
        (Except.ok (clientOf p oauth rt),
         [Event.refreshCall rt, Event.sessionBuilt (p.mintAccess rt)]) ∧
      p.transportOk = true ∧ rt ∈ p.validRefreshTokens) := by
  unfold client_from_refresh_token refresh_access_token_without_cache
  by_cases h1 : p.transportOk = false
  · left
    exact ⟨AuthError.NetworkError, by simp [h1]⟩
  · by_cases h2 : rt ∈ p.validRefreshTokens
    · right
      refine ⟨?_, by simpa using h1, h2⟩
      simp [h1, h2, clientOf, mintedToken]
    · left
      exact ⟨AuthError.InvalidGrant, by simp [h1, h2]⟩

/-- C1: with a refresh token the provider honours, the transport up, and
the minted access token accepted by the REST service, building a client
from the stored refresh token succeeds — and does so again for a second
session with the same stored token — and each session's REST calls all
succeed. -/
theorem refresh_repeatable (p : Provider) (cached : Option TokenPair)
    (oauth : SpotifyOAuth) (rt : String) (st : ServiceState)
    (ht : p.transportOk = true) (hv : rt ∈ p.validRefreshTokens)
    (ha : p.mintAccess rt ∈ p.validAccessTokens) :
    (client_from_refresh_token p cached oauth rt).1 = .ok (clientOf p oauth rt) ∧
    (∃ st1 page1, (do_things p st (clientOf p oauth rt)).1 = .ok (st1, page1) ∧
      (client_from_refresh_token p cached oauth rt).1 = .ok (clientOf p oauth rt) ∧
      ∃ st2 page2, (do_things p st1 (clientOf p oauth rt)).1 = .ok (st2, page2)) := by
  have hrefresh : refresh_access_token_without_cache p oauth rt =
      (Except.ok (mintedToken p oauth rt), [Event.refreshCall rt]) := by
    simp [refresh_access_token_without_cache, ht, hv, mintedToken]
  have hclient : (client_from_refresh_token p cached oauth rt).1 =
      .ok (clientOf p oauth rt) := by
    simp only [client_from_refresh_token, hrefresh, clientOf, mintedToken]
  refine ⟨hclient, afterThings st, ⟨⟨(followAll st).followed⟩⟩, ?_, hclient,
    afterThings (afterThings st), ⟨⟨(followAll (afterThings st)).followed⟩⟩, ?_⟩
  · rw [do_things_ok p st (clientOf p oauth rt) (p.mintAccess rt)
      (clientOf_access_token p oauth rt) ha]
  · rw [do_things_ok p (afterThings st) (clientOf p oauth rt) (p.mintAccess rt)
      (clientOf_access_token p oauth rt) ha]

/-- Session one always consists of exactly the one interactive
authorization, whatever its outcome. -/
theorem get_refresh_token_trace (p : Provider) (oauth : SpotifyOAuth) :
    (get_refresh_token p oauth).2 = [Event.interactiveAuth] := by
  cases h : p.interactiveOutcome with
  | error e => simp [get_refresh_token, get_token_without_cache, h]
  | ok tp =>
    cases hr : tp.refresh_token <;>
      simp [get_refresh_token, get_token_without_cache, h, hr]

/-- Every trace `main` can produce: it stops after the interactive
authorization, after a failed refresh, after an unauthorized first REST
call, or runs both sessions to completion — and every refresh call and
session construction uses the refresh token extracted in session one. -/
theorem main_trace_cases (p : Provider) (st : ServiceState)
    (cached : Option TokenPair) (oauth : SpotifyOAuth) :
    (main p st cached oauth).2 = [Event.interactiveAuth] ∨
    ∃ rt, (get_refresh_token p oauth).1 = Except.ok rt ∧
      ((main p st cached oauth).2 = [Event.interactiveAuth, Event.refreshCall rt] ∨
       (main p st cached oauth).2 =
         [Event.interactiveAuth, Event.refreshCall rt,
          Event.sessionBuilt (p.mintAccess rt), Event.restCall "user_follow_artists"] ∨
       (main p st cached oauth).2 =
         [Event.interactiveAuth, Event.refreshCall rt,
          Event.sessionBuilt (p.mintAccess rt),
          Event.restCall "user_follow_artists",
          Event.restCall "current_user_followed_artists",
          Event.restCall "user_unfollow_artists",
          Event.refreshCall rt, Event.sessionBuilt (p.mintAccess rt),
          Event.restCall "user_follow_artists",
          Event.restCall "current_user_followed_artists",
          Event.restCall "user_unfollow_artists"]) := by
  rcases hg : get_refresh_token p oauth with ⟨g, tr1⟩
  have htr1 : tr1 = [Event.interactiveAuth] := by
    have h := get_refresh_token_trace p oauth
    rw [hg] at h
    exact h
  subst htr1
  cases g with
  | error e =>
    left
    simp [main, hg]
  | ok rt =>
    right
    refine ⟨rt, by simp [hg], ?_⟩
    rcases client_cases p cached oauth rt with ⟨e, hc⟩ | ⟨hc, -, -⟩
    · left
      simp [main, hg, hc]
    · by_cases hacc : p.mintAccess rt ∈ p.validAccessTokens
      · right; right
        have hd1 := do_things_ok p st (clientOf p oauth rt) (p.mintAccess rt)
          (clientOf_access_token p oauth rt) hacc
        have hd2 := do_things_ok p (afterThings st) (clientOf p oauth rt)
          (p.mintAccess rt) (clientOf_access_token p oauth rt) hacc
        simp [main, hg, hc, hd1, hd2]
      · right; left
        have hd := do_things_err p st (clientOf p oauth rt) (by
          intro tok htok hmem
          rw [clientOf_access_token p oauth rt] at htok
          cases htok
          exact hacc hmem)
        simp [main, hg, hc, hd]

/-- C3: the program follows the session lifecycle exactly — the interactive
authorization is the first event and happens exactly once; a session is
only ever built right after an access token is freshly minted, and REST
calls are only issued once such a session exists; every refresh exchange
sends precisely the refresh token extracted in session one, and every
session is built from the access token freshly minted from it. -/
theorem session_lifecycle_order (p : Provider) (st : ServiceState)
    (cached : Option TokenPair) (oauth : SpotifyOAuth) :
    ((main p st cached oauth).2).head? = some Event.interactiveAuth ∧
    ((main p st cached oauth).2).count Event.interactiveAuth = 1 ∧
    sessionPhase ((main p st cached oauth).2) 0 = true ∧
    (∀ s, Event.refreshCall s ∈ (main p st cached oauth).2 →
      (get_refresh_token p oauth).1 = Except.ok s) ∧
    (∀ a, Event.sessionBuilt a ∈ (main p st cached oauth).2 →
      ∃ s, (get_refresh_token p oauth).1 = Except.ok s ∧ a = p.mintAccess s) := by
  rcases main_trace_cases p st cached oauth with h | ⟨rt, hrt, h | h | h⟩ <;> rw [h]
  · exact ⟨rfl, by simp [List.count_cons], by rfl,
      fun x hx => by simp at hx, fun a ha => by simp at ha⟩
  · exact ⟨rfl, by simp [List.count_cons], by rfl,
      fun x hx => by simp at hx; subst hx; exact hrt,
      fun a ha => by simp at ha⟩
  · exact ⟨rfl, by simp [List.count_cons], by rfl,
      fun x hx => by simp at hx; subst hx; exact hrt,
      fun a ha => by simp at ha; subst ha; exact ⟨rt, hrt, rfl⟩⟩
  · exact ⟨rfl, by simp [List.count_cons], by rfl,
      fun x hx => by simp at hx; subst hx; exact hrt,
      fun a ha => by simp at ha; subst ha; exact ⟨rt, hrt, rfl⟩⟩

/-- C7: every failure surfaces to the caller as a typed result and stops
the flow at the failing operation, with no retry: an interactive failure
ends the run after the single authorization attempt; a missing refresh
token ends it there too; a transport failure or rejected grant ends it
after the single refresh attempt; an unacceptable access token ends it
after the single first REST call. -/
theorem errors_propagate_no_retry (p : Provider) (st : ServiceState)
    (cached : Option TokenPair) (oauth : SpotifyOAuth) :
    (∀ e, p.interactiveOutcome = .error e →
      main p st cached oauth =
        (.error (.auth e), [Event.interactiveAuth])) ∧
    (∀ tp, p.interactiveOutcome = .ok tp → tp.refresh_token = none →
      main p st cached oauth =
        (.error .missingRefreshToken, [Event.interactiveAuth])) ∧
    (∀ tp rt, p.interactiveOutcome = .ok tp → tp.refresh_token = some rt →
      p.transportOk = false →
      main p st cached oauth =
        (.error (.auth .NetworkError),
         [Event.interactiveAuth, Event.refreshCall rt])) ∧
    (∀ tp rt, p.interactiveOutcome = .ok tp → tp.refresh_token = some rt →
      p.transportOk = true → rt ∉ p.validRefreshTokens →
      main p st cached oauth =
        (.error (.auth .InvalidGrant),
         [Event.interactiveAuth, Event.refreshCall rt])) ∧
    (∀ tp rt, p.interactiveOutcome = .ok tp → tp.refresh_token = some rt →
      p.transportOk = true → rt ∈ p.validRefreshTokens →
      p.mintAccess rt ∉ p.validAccessTokens →
      main p st cached oauth =
        (.error (.api .Unauthorized),
         [Event.interactiveAuth, Event.refreshCall rt,
          Event.sessionBuilt (p.mintAccess rt),
          Event.restCall "user_follow_artists"])) := by
  refine ⟨?_, ?_, ?_, ?_, ?_⟩
  · intro e he
    simp [main, get_refresh_token, get_token_without_cache, he]
  · intro tp hip hnone
    simp [main, get_refresh_token, get_token_without_cache, hip, hnone]
  · intro tp rt hip hsome htr
    have hg : get_refresh_token p oauth =
        (Except.ok rt, [Event.interactiveAuth]) := by
      simp [get_refresh_token, get_token_without_cache, hip, hsome]
    have hre : refresh_access_token_without_cache p oauth rt =
        (Except.error AuthError.NetworkError, [Event.refreshCall rt]) := by
      simp [refresh_access_token_without_cache, htr]
    have hc : client_from_refresh_token p cached oauth rt =
        (Except.error AuthError.NetworkError, [Event.refreshCall rt]) := by
      simp [client_from_refresh_token, hre]
    simp [main, hg, hc]
  · intro tp rt hip hsome ht hv
    have hg : get_refresh_token p oauth =
        (Except.ok rt, [Event.interactiveAuth]) := by
      simp [get_refresh_token, get_token_without_cache, hip, hsome]
    have hre : refresh_access_token_without_cache p oauth rt =
        (Except.error AuthError.InvalidGrant, [Event.refreshCall rt]) := by
      simp [refresh_access_token_without_cache, ht, hv]
    have hc : client_from_refresh_token p cached oauth rt =
        (Except.error AuthError.InvalidGrant, [Event.refreshCall rt]) := by
      simp [client_from_refresh_token, hre]
    simp [main, hg, hc]
  · intro tp rt hip hsome ht hv hacc
    have hg : get_refresh_token p oauth =
        (Except.ok rt, [Event.interactiveAuth]) := by
      simp [get_refresh_token, get_token_without_cache, hip, hsome]
    have hre : refresh_access_token_without_cache p oauth rt =
        (Except.ok (mintedToken p oauth rt), [Event.refreshCall rt]) := by
      simp [refresh_access_token_without_cache, ht, hv, mintedToken]
    have hc : client_from_refresh_token p cached oauth rt =
        (Except.ok (clientOf p oauth rt),
         [Event.refreshCall rt, Event.sessionBuilt (p.mintAccess rt)]) := by
      simp [client_from_refresh_token, hre, clientOf, mintedToken]
    have hd := do_things_err p st (clientOf p oauth rt) (by
      intro tok htok hmem
      rw [clientOf_access_token p oauth rt] at htok
      cases htok
      exact hacc hmem)
    simp [main, hg, hc, hd]

/-- C9: the stored refresh token is never replaced — whenever session one
extracted the refresh token `rt0`, every refresh exchange in the whole run
sends exactly `rt0`, even when the provider rotates and returns a fresh
refresh token (which the program discards). -/
theorem refresh_token_never_replaced (p : Provider) (st : ServiceState)
    (cached : Option TokenPair) (oauth : SpotifyOAuth) (tp : TokenPair)
    (rt0 : String) (hip : p.interactiveOutcome = .ok tp)
    (hsome : tp.refresh_token = some rt0) (s : String)
    (hmem : Event.refreshCall s ∈ (main p st cached oauth).2) :
    s = rt0 := by
  have hok : (get_refresh_token p oauth).1 = Except.ok rt0 := by
    simp [get_refresh_token, get_token_without_cache, hip, hsome]
  rcases main_trace_cases p st cached oauth with h | ⟨rt, hrt, h | h | h⟩
  · rw [h] at hmem
    simp at hmem
  all_goals
    rw [h] at hmem
    rw [hrt] at hok
    have heq : rt = rt0 := Except.ok.inj hok
    subst heq
    simpa using hmem

/-- The token pair the demo provider's interactive flow returns. -/
def demoToken : TokenPair :=
  { access_token := "AT0"
    refresh_token := some "RT1"
    expires_at := 3600
    scope := "user-follow-read user-follow-modify" }

/-- A concrete provider for instantiating the theorems: it honours refresh
token `"RT1"`, mints access token `"AT-RT1"` for it, rotates the refresh
token to `"RT2"` on every refresh (which the program discards), and the
interactive flow hands out `demoToken`. -/
def demoProvider : Provider :=
  { validRefreshTokens := ["RT1"]
    mintAccess := fun rt => "AT-" ++ rt
    rotatedRefresh := fun _ => some "RT2"
    tokenExpiry := 3600
    interactiveOutcome := Except.ok demoToken
    validAccessTokens := ["AT-RT1"]
    transportOk := true }

/-- The demo provider with the transport to the token endpoint down. -/
def offlineProvider : Provider :=
  { demoProvider with transportOk := false }

/-- The oauth configuration the example builds, with concrete
credentials. -/
def demoOAuth : SpotifyOAuth :=
  exampleOAuth "client-id" "client-secret" "http://localhost:8888/callback"

/-- A service state in which nobody is followed. -/
def emptyState : ServiceState :=
  { followed := [] }

/-- Witness for C1: the hypotheses hold at the demo provider and two
sessions built from the stored refresh token `"RT1"` both succeed. -/
theorem refresh_repeatable_witness :
    demoProvider.transportOk = true ∧
    "RT1" ∈ demoProvider.validRefreshTokens ∧
    demoProvider.mintAccess "RT1" ∈ demoProvider.validAccessTokens ∧
    ((client_from_refresh_token demoProvider none demoOAuth "RT1").1 =
        .ok (clientOf demoProvider demoOAuth "RT1") ∧
      (∃ st1 page1,
        (do_things demoProvider emptyState
          (clientOf demoProvider demoOAuth "RT1")).1 = .ok (st1, page1) ∧
        (client_from_refresh_token demoProvider none demoOAuth "RT1").1 =
          .ok (clientOf demoProvider demoOAuth "RT1") ∧
        ∃ st2 page2,
          (do_things demoProvider st1
            (clientOf demoProvider demoOAuth "RT1")).1 = .ok (st2, page2))) :=
  ⟨rfl, by decide, by decide,
   refresh_repeatable demoProvider none demoOAuth "RT1" emptyState rfl
     (by decide) (by decide)⟩

/-- Witness for C3: the lifecycle ordering holds on the demo run, the
demo run's refresh calls all send `"RT1"`, and its sessions are built from
the token minted from `"RT1"`. -/
theorem session_lifecycle_order_witness :
    ((main demoProvider emptyState none demoOAuth).2).head? =
      some Event.interactiveAuth ∧
    ((main demoProvider emptyState none demoOAuth).2).count
      Event.interactiveAuth = 1 ∧
    sessionPhase ((main demoProvider emptyState none demoOAuth).2) 0 = true ∧
    (get_refresh_token demoProvider demoOAuth).1 = Except.ok "RT1" ∧
    (∃ s, (get_refresh_token demoProvider demoOAuth).1 = Except.ok s ∧
      "AT-RT1" = demoProvider.mintAccess s) :=
  ⟨(session_lifecycle_order demoProvider emptyState none demoOAuth).1,
   (session_lifecycle_order demoProvider emptyState none demoOAuth).2.1,
   (session_lifecycle_order demoProvider emptyState none demoOAuth).2.2.1,
   (session_lifecycle_order demoProvider emptyState none demoOAuth).2.2.2.1
     "RT1" (by decide),
   (session_lifecycle_order demoProvider emptyState none demoOAuth).2.2.2.2
     "AT-RT1" (by decide)⟩

/-- Witness for C4: following the example's three artists from the empty
state and unfollowing them restores the empty state. -/
theorem follow_unfollow_roundtrip_witness :
    (∀ i ∈ artists, i ∉ emptyState.followed) ∧
    user_follow_artists demoProvider emptyState
      (clientOf demoProvider demoOAuth "RT1") artists = .ok ⟨artists⟩ ∧
    user_unfollow_artists demoProvider ⟨artists⟩
      (clientOf demoProvider demoOAuth "RT1") artists = .ok emptyState :=
  ⟨by decide, rfl,
   follow_unfollow_roundtrip demoProvider emptyState
     (clientOf demoProvider demoOAuth "RT1") artists ⟨artists⟩
     (by decide) rfl⟩

/-- Witness for C5: after following the example's three artists, the
listed page contains all three. -/
theorem list_after_follow_includes_witness :
    user_follow_artists demoProvider emptyState
      (clientOf demoProvider demoOAuth "RT1") artists = .ok ⟨artists⟩ ∧
    (∃ page, current_user_followed_artists demoProvider ⟨artists⟩
        (clientOf demoProvider demoOAuth "RT1") none none = .ok page ∧
      ∀ i ∈ artists, i ∈ page.artists.items) :=
  ⟨rfl,
   list_after_follow_includes demoProvider emptyState
     (clientOf demoProvider demoOAuth "RT1") artists ⟨artists⟩ rfl⟩

/-- Witness for C6: the demo provider is well-formed, so its successful
exchanges carry non-empty access tokens; and the no-rotation provider
shows a successful refresh with no refresh token. -/
theorem token_pair_invariant_witness :
    Provider.WF demoProvider ∧
    ((∀ tp, (get_token_without_cache demoProvider demoOAuth).1 = .ok tp →
        tp.access_token ≠ "") ∧
     (∀ tp, (refresh_access_token_without_cache demoProvider demoOAuth
        "RT1").1 = .ok tp → tp.access_token ≠ "") ∧
     (∃ tq, Provider.WF noRotationProvider ∧
        (refresh_access_token_without_cache noRotationProvider blankOAuth
          "r").1 = .ok tq ∧
        tq.refresh_token = none)) :=
  ⟨by decide, token_pair_invariant demoProvider demoOAuth "RT1" (by decide)⟩

/-- Witness for C7: with the transport down, the run stops right after the
single refresh attempt with a typed `NetworkError`. -/
theorem errors_propagate_no_retry_witness :
    offlineProvider.interactiveOutcome = .ok demoToken ∧
    demoToken.refresh_token = some "RT1" ∧
    offlineProvider.transportOk = false ∧
    main offlineProvider emptyState none demoOAuth =
      (.error (.auth .NetworkError),
       [Event.interactiveAuth, Event.refreshCall "RT1"]) :=
  ⟨rfl, rfl, rfl,
   (errors_propagate_no_retry offlineProvider emptyState none
     demoOAuth).2.2.1 demoToken "RT1" rfl rfl rfl⟩

/-- Witness for C8: the demo provider rejects the unknown token `"BAD"`
with `InvalidGrant`, not `NetworkError`. -/
theorem refresh_invalid_token_invalid_grant_witness :
    demoProvider.transportOk = true ∧
    "BAD" ∉ demoProvider.validRefreshTokens ∧
    ((refresh_access_token_without_cache demoProvider demoOAuth "BAD").1 =
        .error AuthError.InvalidGrant ∧
      (refresh_access_token_without_cache demoProvider demoOAuth "BAD").1 ≠
        .error AuthError.NetworkError) :=
  ⟨rfl, by decide,
   refresh_invalid_token_invalid_grant demoProvider demoOAuth "BAD" rfl
     (by decide)⟩

/-- Witness for C9: on the demo run — whose provider rotates the refresh
token to `"RT2"` at every refresh — a refresh call occurs and the token it
sends is exactly the stored `"RT1"`. -/
theorem refresh_token_never_replaced_witness :
    demoProvider.interactiveOutcome = .ok demoToken ∧
    demoToken.refresh_token = some "RT1" ∧
    Event.refreshCall "RT1" ∈ (main demoProvider emptyState none demoOAuth).2 ∧
    "RT1" = "RT1" :=
  ⟨rfl, rfl, by decide,
   refresh_token_never_replaced demoProvider emptyState none demoOAuth
     demoToken "RT1" rfl rfl "RT1" (by decide)⟩

end RSpotify
